import Mathlib

/-!
# Reserveringsysteem-App: the request handlers of `main.go`

A shallow embedding of the HTTP handlers of `src/main.go`.

The handlers are straight-line Go code over three pieces of ambient state:
the MySQL database behind `db`, the gorilla cookie session behind `store`,
and the `http.ResponseWriter`.  Each handler is embedded as a pure function

    Env → Request → Database → Outcome

where `Outcome` records what was written to the response writer, the session
as the client holds it afterwards, the database afterwards, and the SQL
statements that were sent to the database, in order.

The database server, the session store, `template.ParseFiles` and the clock
are not part of the repository.  They are modelled as follows.

* `Database` holds the two tables as lists of rows in storage order, and an
  arbitrary function `fails` telling which statements the server rejects and
  with which error text.  A rejected statement changes nothing.  An accepted
  `INSERT` appends one row, an accepted `DELETE ... WHERE naam = ?` removes
  the rows whose `naam` equals the argument, a `SELECT` returns all rows.
* Columns are nullable, and the column `id` holds integers of any size.
  `rows.Scan` into a Go `string` fails exactly on `NULL`; into a Go `int`
  (64 bits) it fails on `NULL` and on a value outside the range of `int`.
* `session.Save` may fail (a cookie store without hash key, a session too
  large to encode); its error is the field `Env.SaveError`.  When it fails no
  cookie is written and the client keeps the session it had.
* `template.ParseFiles` is the field `Env.ParseFiles`, the formatted current
  date is `Env.Vandaag`.
-/

namespace Reserveringsysteem

/-! ## Data model (`main.go` lines 20-51) -/

/-- The `Mysql` block of `Config`. -/
structure MysqlConfig where
  Gebruiker : String
  Wachtwoord : String
  Host : String
  Database : String
  CertificaatPad : String
  deriving DecidableEq, Repr

/-- The `Server` block of `Config`. -/
structure ServerConfig where
  Poort : String
  HTTPS : Bool
  deriving DecidableEq, Repr

/-- The Go struct `Config`. -/
structure Config where
  AdminWachtwoord : String
  Mysql : MysqlConfig
  Server : ServerConfig
  CookieSecret : String
  deriving DecidableEq, Repr

/-- The Go struct `Reservering`. -/
structure Reservering where
  ID : Int
  Voornaam : String
  Tussenvoegsel : String
  Achternaam : String
  BeginDatum : String
  EindDatum : String
  Kenteken : String
  Email : String
  Telefoon : String
  Accommodatie : String
  deriving DecidableEq, Repr

/-! ## The database -/

/-- One stored row of the table `reserveringen`; `none` is SQL `NULL`. -/
structure ReserveringRij where
  id : Option Int
  voornaam : Option String
  tussenvoegsel : Option String
  achternaam : Option String
  begindatum : Option String
  einddatum : Option String
  kenteken : Option String
  email : Option String
  telefoon : Option String
  accommodatie : Option String
  deriving DecidableEq, Repr

/-- The five SQL statements that occur in `main.go`, with their arguments. -/
inductive Statement
  /-- The query `SELECT naam FROM accommodaties`. -/
  | selectAccommodaties
  /-- The query `SELECT id, voornaam, ..., accommodatie FROM reserveringen`. -/
  | selectReserveringen
  /-- The statement `INSERT INTO reserveringen (voornaam, ..., accommodatie)
  VALUES (?, ..., ?)` with its nine arguments. -/
  | insertReservering (voornaam tussenvoegsel achternaam begindatum einddatum
      kenteken email telefoon accommodatie : String)
  /-- The statement `INSERT INTO accommodaties (naam) VALUES (?)`. -/
  | insertAccommodatie (naam : String)
  /-- The statement `DELETE FROM accommodaties WHERE naam = ?`. -/
  | deleteAccommodatie (naam : String)
  deriving DecidableEq, Repr

/-- The database behind the global `db`: the two tables, the next generated
`id`, and the statements the server rejects together with the error text. -/
structure Database where
  reserveringen : List ReserveringRij
  accommodaties : List (Option String)
  volgendId : Int
  fails : Statement → Option String

/-- The row an accepted `INSERT INTO reserveringen` stores. -/
def nieuweRij (id : Int) (voornaam tussenvoegsel achternaam begindatum einddatum
    kenteken email telefoon accommodatie : String) : ReserveringRij :=
  { id := some id, voornaam := some voornaam, tussenvoegsel := some tussenvoegsel,
    achternaam := some achternaam, begindatum := some begindatum,
    einddatum := some einddatum, kenteken := some kenteken, email := some email,
    telefoon := some telefoon, accommodatie := some accommodatie }

/-- The effect of an accepted statement on the tables. -/
def Database.apply (db : Database) : Statement → Database
  | .selectAccommodaties => db
  | .selectReserveringen => db
  | .insertReservering v t a b e k m tel acc =>
    { db with
      reserveringen := db.reserveringen ++ [nieuweRij db.volgendId v t a b e k m tel acc]
      volgendId := db.volgendId + 1 }
  | .insertAccommodatie naam =>
    { db with accommodaties := db.accommodaties ++ [some naam] }
  | .deleteAccommodatie naam =>
    { db with accommodaties := db.accommodaties.filter (fun rij => rij ≠ some naam) }

/-- The call `db.Exec(stmt, args...)`: the error of a rejected statement, or the
database after an accepted one. -/
def Database.Exec (db : Database) (stmt : Statement) : Except String Database :=
  match db.fails stmt with
  | some err => .error err
  | none => .ok (db.apply stmt)

/-- The call `db.Query("SELECT naam FROM accommodaties")`. -/
def Database.QueryAccommodaties (db : Database) : Except String (List (Option String)) :=
  match db.fails .selectAccommodaties with
  | some err => .error err
  | none => .ok db.accommodaties

/-- The call `db.Query("SELECT id, ... FROM reserveringen")`. -/
def Database.QueryReserveringen (db : Database) : Except String (List ReserveringRij) :=
  match db.fails .selectReserveringen with
  | some err => .error err
  | none => .ok db.reserveringen

/-- Scanning one column into a Go `string`: `NULL` is an error. -/
def scanKolom (kolom : String) : Option String → Except String String
  | some v => .ok v
  | none => .error ("sql: Scan error on column " ++ kolom ++ ": converting NULL is unsupported")

/-- The smallest value of a Go `int` (64 bits). -/
def minInt : Int := -9223372036854775808

/-- The largest value of a Go `int` (64 bits). -/
def maxInt : Int := 9223372036854775807

/-- Scanning an integer column into a Go `int`: `NULL` is an error, and so is
a value that does not fit in 64 bits. -/
def scanInt (kolom : String) : Option Int → Except String Int
  | some v =>
    if minInt ≤ v ∧ v ≤ maxInt then .ok v
    else .error ("sql: Scan error on column " ++ kolom ++ ": value out of range")
  | none => .error ("sql: Scan error on column " ++ kolom ++ ": converting NULL is unsupported")

/-- The call `rows.Scan(&naam)` of the accommodation loops. -/
def ScanNaam (rij : Option String) : Except String String :=
  scanKolom "naam" rij

/-- The call `rows.Scan(&r.ID, &r.Voornaam, ..., &r.Accommodatie)`. -/
def ScanReservering (rij : ReserveringRij) : Except String Reservering := do
  let id ← scanInt "id" rij.id
  let voornaam ← scanKolom "voornaam" rij.voornaam
  let tussenvoegsel ← scanKolom "tussenvoegsel" rij.tussenvoegsel
  let achternaam ← scanKolom "achternaam" rij.achternaam
  let begindatum ← scanKolom "begindatum" rij.begindatum
  let einddatum ← scanKolom "einddatum" rij.einddatum
  let kenteken ← scanKolom "kenteken" rij.kenteken
  let email ← scanKolom "email" rij.email
  let telefoon ← scanKolom "telefoon" rij.telefoon
  let accommodatie ← scanKolom "accommodatie" rij.accommodatie
  return { ID := id, Voornaam := voornaam, Tussenvoegsel := tussenvoegsel,
           Achternaam := achternaam, BeginDatum := begindatum, EindDatum := einddatum,
           Kenteken := kenteken, Email := email, Telefoon := telefoon,
           Accommodatie := accommodatie }

/-! ## Sessions, requests, responses -/

/-- A value stored in `session.Values` (a Go `interface{}`). -/
inductive Waarde
  | bool (b : Bool)
  | tekst (s : String)
  | getal (n : Int)
  deriving DecidableEq, Repr

/-- The gorilla session named `"session"`: its `Values` map. -/
structure Session where
  Values : List (String × Waarde)
  deriving DecidableEq, Repr

/-- The map read `session.Values[key]`; `none` is the nil interface. -/
def Session.get (s : Session) (key : String) : Option Waarde :=
  s.Values.lookup key

/-- The map write `session.Values[key] = v`. -/
def Session.set (s : Session) (key : String) (v : Waarde) : Session :=
  { Values := (key, v) :: s.Values.filter (fun kv => kv.1 ≠ key) }

/-- The type assertion `x.(bool)` in its two-result form `auth, ok`. -/
def assertBool : Option Waarde → Bool × Bool
  | some (.bool b) => (b, true)
  | _ => (false, false)

/-- An incoming request: method, the parsed form (`r.Form`), and the session
that `store.Get(r, "session")` decodes from its cookie. -/
structure Request where
  Method : String
  Form : List (String × List String)
  session : Session
  deriving DecidableEq, Repr

/-- The method `r.FormValue(key)`: the first value for `key`, otherwise `""`. -/
def Request.FormValue (r : Request) (key : String) : String :=
  match r.Form.lookup key with
  | some (v :: _) => v
  | _ => ""

/-- The data argument given to a template. -/
inductive TemplateData
  | nil
  | namen (lijst : List String)
  | reserveren (Accommodaties : List String) (Vandaag : String)
  | reserveringen (lijst : List Reservering)
  deriving DecidableEq, Repr

/-- What a handler wrote to its `http.ResponseWriter`. -/
inductive Response
  /-- Nothing was written; the server answers `200` with an empty body. -/
  | unwritten
  /-- The call `http.Error(w, msg, code)`. -/
  | httpError (msg : String) (code : Nat)
  /-- The call `http.Redirect(w, r, url, code)`. -/
  | httpRedirect (url : String) (code : Nat)
  /-- The call `t.ExecuteTemplate(w, "base", data)` on the parsed page `tmpl`. -/
  | executeTemplate (tmpl : String) (data : TemplateData)
  deriving DecidableEq, Repr

/-- The status code of a response. -/
def Response.status : Response → Nat
  | .unwritten => 200
  | .httpError _ code => code
  | .httpRedirect _ code => code
  | .executeTemplate _ _ => 200

/-- The body written by `http.Error`: the message followed by a newline; for
the other responses the body is not modelled. -/
def Response.errorBody : Response → Option String
  | .httpError msg _ => some (msg ++ "\n")
  | _ => none

/-- Whether a template was executed. -/
def Response.rendered : Response → Bool
  | .executeTemplate _ _ => true
  | _ => false

/-- The `Location` header, when the response is a redirect. -/
def Response.location : Response → Option String
  | .httpRedirect url _ => some url
  | _ => none

/-- Substring test on strings: `stuk` occurs somewhere in `tekst`. -/
def bevat (tekst stuk : String) : Prop :=
  stuk.data <:+: tekst.data

instance bevatDecidable (tekst stuk : String) : Decidable (bevat tekst stuk) := by
  unfold bevat; infer_instance

/-- The ambient, read-only environment of a request. -/
structure Env where
  /-- The global `config`. -/
  config : Config
  /-- The call `template.ParseFiles(files...)`: the error text when parsing fails. -/
  ParseFiles : List String → Option String
  /-- The value of `time.Now().Format("2006-01-02")`. -/
  Vandaag : String
  /-- The call `session.Save(r, w)` on the cookie store built from
  `config.CookieSecret`: the error text when the session cannot be encoded. -/
  SaveError : Session → Option String

/-- The result of running a handler. -/
structure Outcome where
  /-- What was written to the response writer. -/
  w : Response
  /-- The session held by the client afterwards: what `store.Get` decodes from
  its cookie on a following request. -/
  session : Session
  /-- The database afterwards. -/
  db : Database
  /-- The statements sent to the database, in order. -/
  issued : List Statement

/-- The effect of `session.Save(r, w)` on the session the client holds, the
returned error being discarded by the caller: the saved session `nieuw` when
the cookie is written, the session `oud` the client already had when saving
fails. -/
def Session.Save (env : Env) (oud nieuw : Session) : Session :=
  match env.SaveError nieuw with
  | none => nieuw
  | some _ => oud

/-! ## The handlers (`main.go` lines 140-325) -/

/-- The Go function `renderTemplate` (lines 140-147). -/
def renderTemplate (env : Env) (tmpl : String) (data : TemplateData) : Response :=
  match env.ParseFiles ["templates/base.html", "templates/" ++ tmpl ++ ".html"] with
  | some err => .httpError err 500
  | none => .executeTemplate tmpl data

/-- The loop `for rows.Next() { ... rows.Scan(&naam) ... append }` of
`getAccommodaties` and `adminAccommodatiesHandler`, started with `lijst`. -/
def scanNamen : List (Option String) → List String → List String
  | [], lijst => lijst
  | rij :: rows, lijst =>
    match ScanNaam rij with
    | .ok naam => scanNamen rows (lijst ++ [naam])
    | .error _ => scanNamen rows lijst

/-- The loop of `adminReserveringenHandler` (lines 253-264), started with
`reserveringen`. -/
def scanReserveringen : List ReserveringRij → List Reservering → List Reservering
  | [], reserveringen => reserveringen
  | rij :: rows, reserveringen =>
    match ScanReservering rij with
    | .ok r => scanReserveringen rows (reserveringen ++ [r])
    | .error _ => scanReserveringen rows reserveringen

/-- The Go function `getAccommodaties` (lines 310-325). -/
def getAccommodaties (db : Database) : Except String (List String) :=
  match db.QueryAccommodaties with
  | .error _ => .error "tabel 'accommodaties' ontbreekt in de database"
  | .ok rows => .ok (scanNamen rows [])

/-- The Go function `homeHandler`. -/
def homeHandler (env : Env) (r : Request) (db : Database) : Outcome :=
  { w := renderTemplate env "home" .nil, session := r.session, db := db, issued := [] }

/-- The Go function `accommodatiesHandler` (lines 153-160). -/
def accommodatiesHandler (env : Env) (r : Request) (db : Database) : Outcome :=
  match getAccommodaties db with
  | .error err =>
    { w := .httpError ("Kan accommodaties niet laden: " ++ err) 500,
      session := r.session, db := db, issued := [.selectAccommodaties] }
  | .ok accommodaties =>
    { w := renderTemplate env "accommodaties" (.namen accommodaties),
      session := r.session, db := db, issued := [.selectAccommodaties] }

/-- The statement `reserveerHandler` executes for a POST (lines 189-198). -/
def reserveerStatement (r : Request) : Statement :=
  .insertReservering (r.FormValue "voornaam") (r.FormValue "tussenvoegsel")
    (r.FormValue "achternaam") (r.FormValue "begindatum") (r.FormValue "einddatum")
    (r.FormValue "kenteken") (r.FormValue "email") (r.FormValue "telefoon")
    (r.FormValue "accommodatie")

/-- The Go function `reserveerHandler` (lines 170-205). -/
def reserveerHandler (env : Env) (r : Request) (db : Database) : Outcome :=
  if r.Method = "GET" then
    match getAccommodaties db with
    | .error err =>
      { w := .httpError ("Kan accommodaties niet laden: " ++ err) 500,
        session := r.session, db := db, issued := [.selectAccommodaties] }
    | .ok accommodaties =>
      { w := renderTemplate env "reserveren" (.reserveren accommodaties env.Vandaag),
        session := r.session, db := db, issued := [.selectAccommodaties] }
  else if r.Method = "POST" then
    match db.Exec (reserveerStatement r) with
    | .error err =>
      { w := .httpError ("Fout bij opslaan reservering: " ++ err) 500,
        session := r.session, db := db, issued := [reserveerStatement r] }
    | .ok db1 =>
      { w := .httpRedirect "/" 303,
        session := r.session, db := db1, issued := [reserveerStatement r] }
  else
    { w := .unwritten, session := r.session, db := db, issued := [] }

/-- The Go function `adminLoginHandler` (lines 207-220). -/
def adminLoginHandler (env : Env) (r : Request) (db : Database) : Outcome :=
  if r.Method = "POST" then
    if r.FormValue "wachtwoord" = env.config.AdminWachtwoord then
      let session := r.session.set "isAdmin" (.bool true)
      { w := .httpRedirect "/admin/dashboard" 303,
        session := Session.Save env r.session session, db := db, issued := [] }
    else
      { w := .httpError "Onjuist wachtwoord" 401,
        session := r.session, db := db, issued := [] }
  else
    { w := renderTemplate env "admin_login" .nil,
      session := r.session, db := db, issued := [] }

/-- The Go function `checkAdmin` (lines 222-229): what it writes and what it
returns. -/
def checkAdmin (r : Request) : Response × Bool :=
  let (auth, ok) := assertBool (r.session.get "isAdmin")
  if !ok || !auth then
    (.httpRedirect "/admin/login" 303, false)
  else
    (.unwritten, true)

/-- The Go function `adminDashboardHandler` (lines 231-236). -/
def adminDashboardHandler (env : Env) (r : Request) (db : Database) : Outcome :=
  if !(checkAdmin r).2 then
    { w := (checkAdmin r).1, session := r.session, db := db, issued := [] }
  else
    { w := renderTemplate env "admin_dashboard" .nil,
      session := r.session, db := db, issued := [] }

/-- The Go function `adminReserveringenHandler` (lines 238-266). -/
def adminReserveringenHandler (env : Env) (r : Request) (db : Database) : Outcome :=
  if !(checkAdmin r).2 then
    { w := (checkAdmin r).1, session := r.session, db := db, issued := [] }
  else
    match db.QueryReserveringen with
    | .error _ =>
      { w := .httpError "Tabel 'reserveringen' ontbreekt in de database." 500,
        session := r.session, db := db, issued := [.selectReserveringen] }
    | .ok rows =>
      { w := renderTemplate env "admin_reserveringen"
          (.reserveringen (scanReserveringen rows [])),
        session := r.session, db := db, issued := [.selectReserveringen] }

/-- The Go function `adminAccommodatiesHandler` (lines 268-308). -/
def adminAccommodatiesHandler (env : Env) (r : Request) (db : Database) : Outcome :=
  if !(checkAdmin r).2 then
    { w := (checkAdmin r).1, session := r.session, db := db, issued := [] }
  else if r.Method = "POST" then
    let actie := r.FormValue "actie"
    let naam := r.FormValue "naam"
    if actie = "toevoegen" ∧ naam ≠ "" then
      match db.Exec (.insertAccommodatie naam) with
      | .error err =>
        { w := .httpError ("Fout bij toevoegen accommodatie: " ++ err) 500,
          session := r.session, db := db, issued := [.insertAccommodatie naam] }
      | .ok db1 =>
        { w := .httpRedirect "/admin/accommodaties" 303,
          session := r.session, db := db1, issued := [.insertAccommodatie naam] }
    else if actie = "verwijderen" ∧ naam ≠ "" then
      match db.Exec (.deleteAccommodatie naam) with
      | .error err =>
        { w := .httpError ("Fout bij verwijderen accommodatie: " ++ err) 500,
          session := r.session, db := db, issued := [.deleteAccommodatie naam] }
      | .ok db1 =>
        { w := .httpRedirect "/admin/accommodaties" 303,
          session := r.session, db := db1, issued := [.deleteAccommodatie naam] }
    else
      { w := .httpRedirect "/admin/accommodaties" 303,
        session := r.session, db := db, issued := [] }
  else if r.Method = "GET" then
    match db.QueryAccommodaties with
    | .error _ =>
      { w := .httpError "Tabel 'accommodaties' ontbreekt in de database." 500,
        session := r.session, db := db, issued := [.selectAccommodaties] }
    | .ok rows =>
      { w := renderTemplate env "admin_accommodaties" (.namen (scanNamen rows [])),
        session := r.session, db := db, issued := [.selectAccommodaties] }
  else
    { w := .unwritten, session := r.session, db := db, issued := [] }

/-! ## Example values -/

/-- A configuration with admin password `geheim`. -/
def voorbeeldConfig : Config :=
  { AdminWachtwoord := "geheim",
    Mysql := { Gebruiker := "app", Wachtwoord := "pw", Host := "db.example.org",
               Database := "camping", CertificaatPad := "certs/ca.pem" },
    Server := { Poort := "8080", HTTPS := false },
    CookieSecret := "cookie" }

/-- An environment in which every template parses. -/
def voorbeeldEnv : Env :=
  { config := voorbeeldConfig, ParseFiles := fun _ => none, Vandaag := "2025-06-01",
    SaveError := fun _ => none }

/-- An environment whose `config.json` has an empty `cookieSecret`: the cookie
store has no hash key and every `session.Save` fails. -/
def geenSleutelEnv : Env :=
  { config := { voorbeeldConfig with CookieSecret := "" },
    ParseFiles := fun _ => none, Vandaag := "2025-06-01",
    SaveError := fun _ => some "securecookie: hash key is not set" }

/-- A session that holds `isAdmin = true`. -/
def adminSession : Session := { Values := [("isAdmin", .bool true)] }

/-- A session without any value. -/
def legeSession : Session := { Values := [] }

/-- A database with two accommodations, one reservation, and no failures. -/
def voorbeeldDb : Database :=
  { reserveringen := [nieuweRij 1 "Jan" "van" "Dijk" "2025-07-01" "2025-07-08"
      "AB-123-C" "jan@example.org" "0612345678" "Chalet"],
    accommodaties := [some "Chalet", some "Tent"],
    volgendId := 2,
    fails := fun _ => none }

/-- An empty database that accepts every statement. -/
def leegDb : Database :=
  { reserveringen := [], accommodaties := [], volgendId := 1, fails := fun _ => none }

/-- A POST to `/admin/login` carrying the configured password. -/
def loginGoed : Request :=
  { Method := "POST", Form := [("wachtwoord", ["geheim"])], session := legeSession }

/-- A POST to `/admin/login` carrying a wrong password. -/
def loginFout : Request :=
  { Method := "POST", Form := [("wachtwoord", ["Geheim "])], session := legeSession }

/-- An unauthenticated POST that asks to delete the accommodation `Tent`. -/
def anoniemVerwijderen : Request :=
  { Method := "POST", Form := [("actie", ["verwijderen"]), ("naam", ["Tent"])],
    session := { Values := [("isAdmin", .tekst "true")] } }

/-- A POST to `/reserveren` with free-form values and no `tussenvoegsel`. -/
def boeking : Request :=
  { Method := "POST",
    Form := [("voornaam", ["Piet"]), ("achternaam", ["Bakker"]),
      ("begindatum", ["morgen"]), ("einddatum", ["2025-08-02"]),
      ("kenteken", [" x y "]), ("email", ["piet"]), ("telefoon", ["geen"]),
      ("accommodatie", ["Boomhut"])],
    session := legeSession }

/-- A database whose server rejects every statement on `accommodaties`
written by the admin page (the two tables hold rows all the same). -/
def weigerDb : Database :=
  { reserveringen := [],
    accommodaties := [some "Chalet", some "Tent"],
    volgendId := 1,
    fails := fun stmt =>
      match stmt with
      | .insertAccommodatie _ => some "Error 1142: INSERT command denied"
      | .deleteAccommodatie _ => some "Error 1142: DELETE command denied"
      | _ => none }

/-- An authenticated POST that adds the accommodation `Hut`. -/
def toevoegenHut : Request :=
  { Method := "POST", Form := [("actie", ["toevoegen"]), ("naam", ["Hut"])],
    session := adminSession }

/-- An authenticated POST that adds the empty name. -/
def toevoegenLeeg : Request :=
  { Method := "POST", Form := [("actie", ["toevoegen"]), ("naam", [""])],
    session := adminSession }

/-- An authenticated GET of the accommodation list. -/
def lijstOpvragen : Request :=
  { Method := "GET", Form := [], session := adminSession }

/-- A database in which one accommodation row has the empty name. -/
def naamloosDb : Database :=
  { reserveringen := [],
    accommodaties := [some "", some "Tent"],
    volgendId := 1,
    fails := fun _ => none }

/-- An authenticated POST that deletes the empty name. -/
def verwijderenLeeg : Request :=
  { Method := "POST", Form := [("actie", ["verwijderen"]), ("naam", [""])],
    session := adminSession }

/-- An authenticated POST that deletes the accommodation `Tent`. -/
def verwijderenTent : Request :=
  { Method := "POST", Form := [("actie", ["verwijderen"]), ("naam", ["Tent"])],
    session := adminSession }

/-- An authenticated POST with an unknown action and a name. -/
def hernoemen : Request :=
  { Method := "POST", Form := [("actie", ["Toevoegen"]), ("naam", ["Tent"])],
    session := adminSession }

/-- A database with the accommodation `Tent` stored twice and a row without name. -/
def dubbelDb : Database :=
  { reserveringen := [],
    accommodaties := [some "Tent", some "Chalet", none, some "Tent", some "tent"],
    volgendId := 1,
    fails := fun _ => none }

/-- A database without the table `accommodaties`: the server rejects the
SELECT on it. -/
def zonderAccommodatiesDb : Database :=
  { reserveringen := [],
    accommodaties := [],
    volgendId := 1,
    fails := fun stmt =>
      match stmt with
      | .selectAccommodaties => some "Error 1146: Table camping.accommodaties does not exist"
      | _ => none }

/-- A database whose connection is gone: every statement fails. -/
def verbrokenDb : Database :=
  { reserveringen := [],
    accommodaties := [],
    volgendId := 1,
    fails := fun _ => some "driver: bad connection" }

/-- An unauthenticated GET, as the booking form receives it. -/
def formulierOpvragen : Request :=
  { Method := "GET", Form := [], session := legeSession }

/-- A database whose second reservation has no `email` (SQL `NULL`) and whose
fourth has an `id` one above the largest Go `int`. -/
def gatenDb : Database :=
  { reserveringen :=
      [nieuweRij 1 "Jan" "van" "Dijk" "2025-07-01" "2025-07-08" "AB-123-C"
         "jan@example.org" "0612345678" "Chalet",
       { nieuweRij 2 "Els" "" "Smit" "2025-07-02" "2025-07-03" "" "" "" "Tent" with
         email := none },
       nieuweRij 3 "Kim" "de" "Boer" "2025-07-05" "2025-07-06" "ZZ-99-ZZ"
         "kim@example.org" "" "Tent",
       nieuweRij 9223372036854775808 "Bo" "" "Vos" "2025-07-09" "2025-07-10" "BB-11-B"
         "bo@example.org" "" "Chalet"],
    accommodaties := [some "Chalet", some "Tent"],
    volgendId := 9223372036854775809,
    fails := fun _ => none }

/-! ## Basic facts about the model -/

theorem Session.get_set (s : Session) (key : String) (v : Waarde) :
    (s.set key v).get key = some v := by
  simp [Session.get, Session.set, List.lookup]

theorem checkAdmin_of_admin (r : Request)
    (h : r.session.get "isAdmin" = some (.bool true)) :
    checkAdmin r = (.unwritten, true) := by
  simp [checkAdmin, h, assertBool]

theorem checkAdmin_of_not_admin (r : Request)
    (h : r.session.get "isAdmin" ≠ some (.bool true)) :
    checkAdmin r = (.httpRedirect "/admin/login" 303, false) := by
  unfold checkAdmin
  rcases hx : r.session.get "isAdmin" with _ | (b | s | n)
  · simp [assertBool]
  · cases b
    · simp [assertBool]
    · exact absurd hx h
  · simp [assertBool]
  · simp [assertBool]

theorem bevat_middle (voor err na : String) : bevat (voor ++ err ++ na) err := by
  unfold bevat
  exact ⟨voor.data, na.data, by simp [String.data_append]⟩

/-! ## Admin authentication -/

/-- C1, as stated, fails: with a cookie store that cannot encode a session
(an empty `cookieSecret`), a POST to `/admin/login` with the configured
password is answered with the 303 redirect to `/admin/dashboard`, but the
error of `session.Save` is dropped, no cookie is written, and the session the
client holds does not have `isAdmin = true`. -/
theorem adminLogin_save_failure_counterexample :
    loginGoed.Method = "POST" ∧
    loginGoed.FormValue "wachtwoord" = geenSleutelEnv.config.AdminWachtwoord ∧
    (adminLoginHandler geenSleutelEnv loginGoed voorbeeldDb).w
      = .httpRedirect "/admin/dashboard" 303 ∧
    ¬ ((adminLoginHandler geenSleutelEnv loginGoed voorbeeldDb).session.get "isAdmin"
        = some (.bool true)) := by
  decide

/-- C1, amended: for a POST to `/admin/login`, when the form value `wachtwoord`
equals the configured password (plain string equality) the handler answers
with a 303 redirect to `/admin/dashboard`, and when `session.Save` succeeds on
the session with `isAdmin = true` the session the client holds afterwards is
that session, so it has `isAdmin = true`; when the value differs the handler
answers 401 and the session is left exactly as it was. -/
theorem adminLoginHandler_post (env : Env) (r : Request) (db : Database)
    (hm : r.Method = "POST") :
    (r.FormValue "wachtwoord" = env.config.AdminWachtwoord →
      (adminLoginHandler env r db).w = .httpRedirect "/admin/dashboard" 303 ∧
      (env.SaveError (r.session.set "isAdmin" (.bool true)) = none →
        (adminLoginHandler env r db).session = r.session.set "isAdmin" (.bool true) ∧
        (adminLoginHandler env r db).session.get "isAdmin" = some (.bool true))) ∧
    (r.FormValue "wachtwoord" ≠ env.config.AdminWachtwoord →
      (adminLoginHandler env r db).w.status = 401 ∧
      (adminLoginHandler env r db).session = r.session) := by
  constructor
  · intro hpw
    refine ⟨by simp [adminLoginHandler, hm, hpw], ?_⟩
    intro hsave
    simp [adminLoginHandler, hm, hpw, Session.Save, hsave, Session.get_set]
  · intro hpw
    simp [adminLoginHandler, hm, hpw, Response.status]

/-- Witness for the amended C1: with a working cookie store the password
`geheim` logs in; the near miss `Geheim ` (other case, trailing blank) is
refused and leaves the empty session empty. -/
theorem adminLoginHandler_post_witness :
    ((adminLoginHandler voorbeeldEnv loginGoed voorbeeldDb).w
        = .httpRedirect "/admin/dashboard" 303 ∧
      (adminLoginHandler voorbeeldEnv loginGoed voorbeeldDb).session.get "isAdmin"
        = some (.bool true)) ∧
    ((adminLoginHandler voorbeeldEnv loginFout voorbeeldDb).w.status = 401 ∧
      (adminLoginHandler voorbeeldEnv loginFout voorbeeldDb).session = legeSession) :=
  have h := (adminLoginHandler_post voorbeeldEnv loginGoed voorbeeldDb (by decide)).1
    (by decide)
  ⟨⟨h.1, (h.2 rfl).2⟩,
   (adminLoginHandler_post voorbeeldEnv loginFout voorbeeldDb (by decide)).2 (by decide)⟩

/-- C2: `checkAdmin` returns true exactly when the session value `isAdmin` is
the boolean `true`; and on each protected admin route a request without that
value, whatever its method, is answered with a redirect to `/admin/login`
while the session and the database stay as they were and no statement is
sent to the database. -/
theorem admin_routes_require_flag (env : Env) (r : Request) (db : Database) :
    ((checkAdmin r).2 = true ↔ r.session.get "isAdmin" = some (.bool true)) ∧
    (r.session.get "isAdmin" ≠ some (.bool true) →
      ((adminDashboardHandler env r db).w = .httpRedirect "/admin/login" 303 ∧
        (adminDashboardHandler env r db).session = r.session ∧
        (adminDashboardHandler env r db).db = db ∧
        (adminDashboardHandler env r db).issued = []) ∧
      ((adminReserveringenHandler env r db).w = .httpRedirect "/admin/login" 303 ∧
        (adminReserveringenHandler env r db).session = r.session ∧
        (adminReserveringenHandler env r db).db = db ∧
        (adminReserveringenHandler env r db).issued = []) ∧
      ((adminAccommodatiesHandler env r db).w = .httpRedirect "/admin/login" 303 ∧
        (adminAccommodatiesHandler env r db).session = r.session ∧
        (adminAccommodatiesHandler env r db).db = db ∧
        (adminAccommodatiesHandler env r db).issued = [])) := by
  constructor
  · by_cases h : r.session.get "isAdmin" = some (.bool true)
    · simp [checkAdmin_of_admin r h, h]
    · simp [checkAdmin_of_not_admin r h, h]
  · intro h
    simp [adminDashboardHandler, adminReserveringenHandler, adminAccommodatiesHandler,
      checkAdmin_of_not_admin r h]

/-- C10: a request to a protected admin route without `isAdmin = true` sends no
statement to the database, leaves both tables as they were, and gets a
response that is the same for any two databases. -/
theorem admin_routes_without_flag_ignore_db (env : Env) (r : Request)
    (db db2 : Database) (h : r.session.get "isAdmin" ≠ some (.bool true)) :
    ((adminDashboardHandler env r db).issued = [] ∧
      (adminDashboardHandler env r db).db.reserveringen = db.reserveringen ∧
      (adminDashboardHandler env r db).db.accommodaties = db.accommodaties ∧
      (adminDashboardHandler env r db).w = (adminDashboardHandler env r db2).w) ∧
    ((adminReserveringenHandler env r db).issued = [] ∧
      (adminReserveringenHandler env r db).db.reserveringen = db.reserveringen ∧
      (adminReserveringenHandler env r db).db.accommodaties = db.accommodaties ∧
      (adminReserveringenHandler env r db).w = (adminReserveringenHandler env r db2).w) ∧
    ((adminAccommodatiesHandler env r db).issued = [] ∧
      (adminAccommodatiesHandler env r db).db.reserveringen = db.reserveringen ∧
      (adminAccommodatiesHandler env r db).db.accommodaties = db.accommodaties ∧
      (adminAccommodatiesHandler env r db).w = (adminAccommodatiesHandler env r db2).w) := by
  simp [adminDashboardHandler, adminReserveringenHandler, adminAccommodatiesHandler,
    checkAdmin_of_not_admin r h]

/-- Witness for C10: an unauthenticated `verwijderen` POST (the session holds
the string `"true"`, not the boolean) against the example database and
against an empty one. -/
theorem admin_routes_without_flag_ignore_db_witness :
    (adminAccommodatiesHandler voorbeeldEnv anoniemVerwijderen voorbeeldDb).issued = [] ∧
    (adminAccommodatiesHandler voorbeeldEnv anoniemVerwijderen voorbeeldDb).db.accommodaties
      = [some "Chalet", some "Tent"] ∧
    (adminAccommodatiesHandler voorbeeldEnv anoniemVerwijderen voorbeeldDb).w
      = (adminAccommodatiesHandler voorbeeldEnv anoniemVerwijderen leegDb).w :=
  have h := (admin_routes_without_flag_ignore_db voorbeeldEnv anoniemVerwijderen
    voorbeeldDb leegDb (by decide)).2.2
  ⟨h.1, h.2.2.1, h.2.2.2⟩

/-- Witness for C2: the session of `anoniemVerwijderen` holds the string
`"true"` under `isAdmin`, a non-boolean; the three routes redirect. -/
theorem admin_routes_require_flag_witness :
    (checkAdmin anoniemVerwijderen).2 = false ∧
    (adminDashboardHandler voorbeeldEnv anoniemVerwijderen voorbeeldDb).w
      = .httpRedirect "/admin/login" 303 ∧
    (adminReserveringenHandler voorbeeldEnv anoniemVerwijderen voorbeeldDb).w
      = .httpRedirect "/admin/login" 303 ∧
    (adminAccommodatiesHandler voorbeeldEnv anoniemVerwijderen voorbeeldDb).w
      = .httpRedirect "/admin/login" 303 :=
  have h := admin_routes_require_flag voorbeeldEnv anoniemVerwijderen voorbeeldDb
  have hno : anoniemVerwijderen.session.get "isAdmin" ≠ some (.bool true) := by decide
  ⟨by
      cases hc : (checkAdmin anoniemVerwijderen).2
      · rfl
      · exact absurd (h.1.mp hc) hno,
    (h.2 hno).1.1, (h.2 hno).2.1.1, (h.2 hno).2.2.1⟩

/-! ## The scan loops -/

theorem scanNamen_eq (rows : List (Option String)) (lijst : List String) :
    scanNamen rows lijst = lijst ++ rows.filterMap (fun rij => (ScanNaam rij).toOption) := by
  induction rows generalizing lijst with
  | nil => simp [scanNamen]
  | cons rij rows ih =>
    cases hs : ScanNaam rij with
    | error e => simp [scanNamen, hs, ih, Except.toOption]
    | ok naam => simp [scanNamen, hs, ih, Except.toOption]

theorem scanReserveringen_eq (rows : List ReserveringRij) (acc : List Reservering) :
    scanReserveringen rows acc
      = acc ++ rows.filterMap (fun rij => (ScanReservering rij).toOption) := by
  induction rows generalizing acc with
  | nil => simp [scanReserveringen]
  | cons rij rows ih =>
    cases hs : ScanReservering rij with
    | error e => simp [scanReserveringen, hs, ih, Except.toOption]
    | ok r => simp [scanReserveringen, hs, ih, Except.toOption]

theorem mem_scanNamen_of_mem (rows : List (Option String)) (naam : String)
    (h : some naam ∈ rows) : naam ∈ scanNamen rows [] := by
  rw [scanNamen_eq]
  simp only [List.nil_append, List.mem_filterMap]
  exact ⟨some naam, h, by simp [ScanNaam, scanKolom, Except.toOption]⟩

theorem filterMap_filter_isSome {α β : Type} (f : α → Option β) (l : List α) :
    (l.filter (fun a => (f a).isSome)).filterMap f = l.filterMap f := by
  induction l with
  | nil => rfl
  | cons a l ih =>
    cases h : f a with
    | none => simp [List.filter_cons, List.filterMap_cons, h, ih]
    | some b => simp [List.filter_cons, List.filterMap_cons, h, ih]

theorem ScanReservering_eq_ok_iff (rij : ReserveringRij) (res : Reservering) :
    ScanReservering rij = .ok res ↔
      (rij.id = some res.ID ∧ minInt ≤ res.ID ∧ res.ID ≤ maxInt ∧
        rij.voornaam = some res.Voornaam ∧
        rij.tussenvoegsel = some res.Tussenvoegsel ∧ rij.achternaam = some res.Achternaam ∧
        rij.begindatum = some res.BeginDatum ∧ rij.einddatum = some res.EindDatum ∧
        rij.kenteken = some res.Kenteken ∧ rij.email = some res.Email ∧
        rij.telefoon = some res.Telefoon ∧ rij.accommodatie = some res.Accommodatie) := by
  obtain ⟨id, v, t, a, b, e, k, m, tel, acc⟩ := rij
  obtain ⟨ID, V, T, A, B, E, K, M, Tel, Acc⟩ := res
  cases id with
  | none =>
    simp [ScanReservering, scanInt, bind, Except.bind]
  | some n =>
    by_cases hn : minInt ≤ n ∧ n ≤ maxInt
    · cases v <;> cases t <;> cases a <;> cases b <;> cases e <;> cases k <;>
        cases m <;> cases tel <;> cases acc <;>
        simp [ScanReservering, scanInt, scanKolom, bind, Except.bind, pure, Except.pure, hn]
      intro h
      subst h
      simp [hn.1, hn.2]
    · simp only [ScanReservering, scanInt, hn, if_false, bind, Except.bind]
      constructor
      · intro h
        cases h
      · rintro ⟨h1, h2, h3, _⟩
        cases h1
        exact absurd ⟨h2, h3⟩ hn

/-! ## Public booking -/

/-- C3: for a POST to `/reserveren` whose INSERT is accepted, the table
`reserveringen` afterwards is the table before followed by exactly one new row
whose nine columns are the nine form values of the same names, unaltered; the
table `accommodaties` is unchanged, exactly one statement was sent, and the
response is a 303 redirect to `/`. -/
theorem reserveerHandler_post_inserts_one_row (env : Env) (r : Request) (db : Database)
    (hm : r.Method = "POST") (hok : db.fails (reserveerStatement r) = none) :
    ∃ rij : ReserveringRij,
      (reserveerHandler env r db).db.reserveringen = db.reserveringen ++ [rij] ∧
      rij.voornaam = some (r.FormValue "voornaam") ∧
      rij.tussenvoegsel = some (r.FormValue "tussenvoegsel") ∧
      rij.achternaam = some (r.FormValue "achternaam") ∧
      rij.begindatum = some (r.FormValue "begindatum") ∧
      rij.einddatum = some (r.FormValue "einddatum") ∧
      rij.kenteken = some (r.FormValue "kenteken") ∧
      rij.email = some (r.FormValue "email") ∧
      rij.telefoon = some (r.FormValue "telefoon") ∧
      rij.accommodatie = some (r.FormValue "accommodatie") ∧
      (reserveerHandler env r db).db.accommodaties = db.accommodaties ∧
      (reserveerHandler env r db).issued.length = 1 ∧
      (reserveerHandler env r db).w = .httpRedirect "/" 303 := by
  refine ⟨nieuweRij db.volgendId (r.FormValue "voornaam") (r.FormValue "tussenvoegsel")
    (r.FormValue "achternaam") (r.FormValue "begindatum") (r.FormValue "einddatum")
    (r.FormValue "kenteken") (r.FormValue "email") (r.FormValue "telefoon")
    (r.FormValue "accommodatie"), ?_⟩
  simp [reserveerHandler, hm, Database.Exec, hok, nieuweRij]
  simp [reserveerStatement, Database.apply, nieuweRij]

/-- Witness for C3: the example booking, whose `kenteken` and `telefoon` are
not well-formed and whose `tussenvoegsel` is absent, is stored as submitted. -/
theorem reserveerHandler_post_inserts_one_row_witness :
    ∃ rij : ReserveringRij,
      (reserveerHandler voorbeeldEnv boeking voorbeeldDb).db.reserveringen
        = voorbeeldDb.reserveringen ++ [rij] ∧
      rij.voornaam = some "Piet" ∧ rij.tussenvoegsel = some "" ∧
      rij.kenteken = some " x y " ∧ rij.telefoon = some "geen" ∧
      (reserveerHandler voorbeeldEnv boeking voorbeeldDb).w = .httpRedirect "/" 303 :=
  match reserveerHandler_post_inserts_one_row voorbeeldEnv boeking voorbeeldDb
      (by decide) (by rfl) with
  | ⟨rij, h1, h2, h3, _, _, _, h7, _, h9, _, _, _, h13⟩ => ⟨rij, h1, h2, h3, h7, h9, h13⟩

/-! ## Admin accommodation management -/

/-- C4, as stated, fails: when the server rejects the INSERT, an authenticated
`toevoegen` POST with the non-empty name `Hut` is answered with status 500
instead of a redirect, and the table does not contain `Hut` afterwards. -/
theorem toevoegen_rejected_insert_counterexample :
    toevoegenHut.session.get "isAdmin" = some (.bool true) ∧
    toevoegenHut.Method = "POST" ∧
    toevoegenHut.FormValue "actie" = "toevoegen" ∧
    toevoegenHut.FormValue "naam" ≠ "" ∧
    ¬ (some (toevoegenHut.FormValue "naam")
        ∈ (adminAccommodatiesHandler voorbeeldEnv toevoegenHut weigerDb).db.accommodaties) ∧
    (adminAccommodatiesHandler voorbeeldEnv toevoegenHut weigerDb).w
      ≠ .httpRedirect "/admin/accommodaties" 303 ∧
    (adminAccommodatiesHandler voorbeeldEnv toevoegenHut weigerDb).w.status = 500 := by
  decide

/-- C4, amended: for an authenticated POST to `/admin/accommodaties` with
`actie=toevoegen`: if `naam` is non-empty and the INSERT is accepted, the table
`accommodaties` afterwards is the old table followed by one row with that
name, the response is a 303 redirect to `/admin/accommodaties`, and a following
authenticated GET whose SELECT is accepted hands a list containing the name to
the list template; if `naam` is empty, both tables are unchanged, nothing is
sent to the database, and the response is the same redirect. -/
theorem toevoegen_accepted_insert (env : Env) (r : Request) (db : Database)
    (hadmin : r.session.get "isAdmin" = some (.bool true))
    (hm : r.Method = "POST") (hactie : r.FormValue "actie" = "toevoegen") :
    (r.FormValue "naam" ≠ "" → db.fails (.insertAccommodatie (r.FormValue "naam")) = none →
      (adminAccommodatiesHandler env r db).db.accommodaties
        = db.accommodaties ++ [some (r.FormValue "naam")] ∧
      (adminAccommodatiesHandler env r db).db.reserveringen = db.reserveringen ∧
      (adminAccommodatiesHandler env r db).w = .httpRedirect "/admin/accommodaties" 303 ∧
      ∀ g : Request, g.Method = "GET" → g.session.get "isAdmin" = some (.bool true) →
        (adminAccommodatiesHandler env r db).db.fails .selectAccommodaties = none →
        ∃ lijst : List String, r.FormValue "naam" ∈ lijst ∧
          (adminAccommodatiesHandler env g (adminAccommodatiesHandler env r db).db).w
            = renderTemplate env "admin_accommodaties" (.namen lijst)) ∧
    (r.FormValue "naam" = "" →
      (adminAccommodatiesHandler env r db).db = db ∧
      (adminAccommodatiesHandler env r db).issued = [] ∧
      (adminAccommodatiesHandler env r db).w = .httpRedirect "/admin/accommodaties" 303) := by
  constructor
  · intro hnaam hok
    have hout : adminAccommodatiesHandler env r db =
        { w := .httpRedirect "/admin/accommodaties" 303, session := r.session,
          db := db.apply (.insertAccommodatie (r.FormValue "naam")),
          issued := [.insertAccommodatie (r.FormValue "naam")] } := by
      simp [adminAccommodatiesHandler, checkAdmin_of_admin r hadmin, hm, hactie, hnaam,
        Database.Exec, hok]
    rw [hout]
    refine ⟨rfl, rfl, rfl, ?_⟩
    intro g hg hgadmin hsel
    replace hsel : db.fails .selectAccommodaties = none := hsel
    refine ⟨scanNamen (db.accommodaties ++ [some (r.FormValue "naam")]) [],
      mem_scanNamen_of_mem _ _ (by simp), ?_⟩
    simp [adminAccommodatiesHandler, checkAdmin_of_admin g hgadmin, hg,
      Database.QueryAccommodaties, Database.apply, hsel]
  · intro hnaam
    simp [adminAccommodatiesHandler, checkAdmin_of_admin r hadmin, hm, hactie, hnaam]

/-- Witness for the amended C4: adding `Hut` to the example database, then
listing; and adding the empty name. -/
theorem toevoegen_accepted_insert_witness :
    ((adminAccommodatiesHandler voorbeeldEnv toevoegenHut voorbeeldDb).db.accommodaties
        = [some "Chalet", some "Tent", some "Hut"] ∧
      ∃ lijst : List String, "Hut" ∈ lijst ∧
        (adminAccommodatiesHandler voorbeeldEnv lijstOpvragen
            (adminAccommodatiesHandler voorbeeldEnv toevoegenHut voorbeeldDb).db).w
          = renderTemplate voorbeeldEnv "admin_accommodaties" (.namen lijst)) ∧
    (adminAccommodatiesHandler voorbeeldEnv toevoegenLeeg voorbeeldDb).issued = [] :=
  have h1 := (toevoegen_accepted_insert voorbeeldEnv toevoegenHut voorbeeldDb
    (by decide) (by decide) (by decide)).1 (by decide) (by rfl)
  have h2 := (toevoegen_accepted_insert voorbeeldEnv toevoegenLeeg voorbeeldDb
    (by decide) (by decide) (by decide)).2 (by decide)
  ⟨⟨h1.1, h1.2.2.2 lijstOpvragen (by decide) (by decide) (by rfl)⟩, h2.2.1⟩

/-- C5, as stated, fails at two inputs: an authenticated `verwijderen` POST
with the empty name leaves a row whose name is the empty string in the table;
and when the server rejects the DELETE, the rows named `Tent` stay. -/
theorem verwijderen_counterexample :
    (verwijderenLeeg.session.get "isAdmin" = some (.bool true) ∧
      verwijderenLeeg.Method = "POST" ∧
      verwijderenLeeg.FormValue "actie" = "verwijderen" ∧
      some (verwijderenLeeg.FormValue "naam")
        ∈ (adminAccommodatiesHandler voorbeeldEnv verwijderenLeeg naamloosDb).db.accommodaties) ∧
    (verwijderenTent.session.get "isAdmin" = some (.bool true) ∧
      verwijderenTent.Method = "POST" ∧
      verwijderenTent.FormValue "actie" = "verwijderen" ∧
      some (verwijderenTent.FormValue "naam")
        ∈ (adminAccommodatiesHandler voorbeeldEnv verwijderenTent weigerDb).db.accommodaties) := by
  decide

/-- C5, amended: for an authenticated POST to `/admin/accommodaties` with
`actie=verwijderen` and a non-empty `naam` whose DELETE is accepted, the table
`accommodaties` afterwards is the old table with exactly the rows named `naam`
removed: no row named `naam` is left, and the rows with another name (or
without one) are all still there, unchanged and in the same order. The table
`reserveringen` is unchanged. -/
theorem verwijderen_accepted_delete (env : Env) (r : Request) (db : Database)
    (hadmin : r.session.get "isAdmin" = some (.bool true))
    (hm : r.Method = "POST") (hactie : r.FormValue "actie" = "verwijderen")
    (hnaam : r.FormValue "naam" ≠ "")
    (hok : db.fails (.deleteAccommodatie (r.FormValue "naam")) = none) :
    some (r.FormValue "naam") ∉ (adminAccommodatiesHandler env r db).db.accommodaties ∧
    (adminAccommodatiesHandler env r db).db.accommodaties
      = db.accommodaties.filter (fun rij => rij ≠ some (r.FormValue "naam")) ∧
    (adminAccommodatiesHandler env r db).db.accommodaties.Sublist db.accommodaties ∧
    (∀ rij ∈ db.accommodaties, rij ≠ some (r.FormValue "naam") →
      rij ∈ (adminAccommodatiesHandler env r db).db.accommodaties) ∧
    (adminAccommodatiesHandler env r db).db.reserveringen = db.reserveringen := by
  have hout : adminAccommodatiesHandler env r db =
      { w := .httpRedirect "/admin/accommodaties" 303, session := r.session,
        db := db.apply (.deleteAccommodatie (r.FormValue "naam")),
        issued := [.deleteAccommodatie (r.FormValue "naam")] } := by
    simp [adminAccommodatiesHandler, checkAdmin_of_admin r hadmin, hm, hactie, hnaam,
      Database.Exec, hok]
  rw [hout]
  refine ⟨?_, rfl, ?_, ?_, rfl⟩
  · simp [Database.apply]
  · exact List.filter_sublist _
  · intro rij hmem hrij
    simp [Database.apply, hmem, hrij]

/-- Witness for the amended C5: deleting `Tent` from a table that holds it
twice, next to `Chalet`, a row without name, and `tent`. -/
theorem verwijderen_accepted_delete_witness :
    some "Tent" ∉ (adminAccommodatiesHandler voorbeeldEnv verwijderenTent dubbelDb).db.accommodaties ∧
    (adminAccommodatiesHandler voorbeeldEnv verwijderenTent dubbelDb).db.accommodaties
      = [some "Chalet", none, some "tent"] :=
  have h := verwijderen_accepted_delete voorbeeldEnv verwijderenTent dubbelDb
    (by decide) (by decide) (by decide) (by decide) (by rfl)
  ⟨h.1, h.2.1.trans (by decide)⟩

/-- C6: an authenticated POST to `/admin/accommodaties` whose `actie` is
neither `toevoegen` nor `verwijderen` sends nothing to the database, leaves
both tables unchanged and is answered with a 303 redirect to
`/admin/accommodaties`, whatever `naam` is; and every authenticated POST to
that route none of whose statements was rejected ends with that redirect. -/
theorem adminAccommodaties_post_redirects (env : Env) (r : Request) (db : Database)
    (hadmin : r.session.get "isAdmin" = some (.bool true)) (hm : r.Method = "POST") :
    (r.FormValue "actie" ≠ "toevoegen" → r.FormValue "actie" ≠ "verwijderen" →
      (adminAccommodatiesHandler env r db).issued = [] ∧
      (adminAccommodatiesHandler env r db).db.reserveringen = db.reserveringen ∧
      (adminAccommodatiesHandler env r db).db.accommodaties = db.accommodaties ∧
      (adminAccommodatiesHandler env r db).w = .httpRedirect "/admin/accommodaties" 303) ∧
    ((∀ stmt ∈ (adminAccommodatiesHandler env r db).issued, db.fails stmt = none) →
      (adminAccommodatiesHandler env r db).w = .httpRedirect "/admin/accommodaties" 303) := by
  constructor
  · intro h1 h2
    simp [adminAccommodatiesHandler, checkAdmin_of_admin r hadmin, hm, h1, h2]
  · by_cases h1 : r.FormValue "actie" = "toevoegen" ∧ r.FormValue "naam" ≠ ""
    · cases hf : db.fails (.insertAccommodatie (r.FormValue "naam")) with
      | none =>
        simp [adminAccommodatiesHandler, checkAdmin_of_admin r hadmin, hm, h1,
          Database.Exec, hf]
      | some e =>
        simp [adminAccommodatiesHandler, checkAdmin_of_admin r hadmin, hm, h1,
          Database.Exec, hf]
    · by_cases h2 : r.FormValue "actie" = "verwijderen" ∧ r.FormValue "naam" ≠ ""
      · have h1a : r.FormValue "actie" ≠ "toevoegen" := by rw [h2.1]; decide
        cases hf : db.fails (.deleteAccommodatie (r.FormValue "naam")) with
        | none =>
          simp [adminAccommodatiesHandler, checkAdmin_of_admin r hadmin, hm, h1a, h2,
            Database.Exec, hf]
        | some e =>
          simp [adminAccommodatiesHandler, checkAdmin_of_admin r hadmin, hm, h1a, h2,
            Database.Exec, hf]
      · intro _
        simp only [adminAccommodatiesHandler, checkAdmin_of_admin r hadmin, hm]
        simp [h1, h2]

/-- Witness for C6: the action `Toevoegen` (capital T) with the name `Tent`. -/
theorem adminAccommodaties_post_redirects_witness :
    (adminAccommodatiesHandler voorbeeldEnv hernoemen voorbeeldDb).issued = [] ∧
    (adminAccommodatiesHandler voorbeeldEnv hernoemen voorbeeldDb).db.accommodaties
      = [some "Chalet", some "Tent"] ∧
    (adminAccommodatiesHandler voorbeeldEnv verwijderenTent voorbeeldDb).w
      = .httpRedirect "/admin/accommodaties" 303 :=
  have h := (adminAccommodaties_post_redirects voorbeeldEnv hernoemen voorbeeldDb
    (by decide) (by decide)).1 (by decide) (by decide)
  ⟨h.1, h.2.2.1,
    (adminAccommodaties_post_redirects voorbeeldEnv verwijderenTent voorbeeldDb
      (by decide) (by decide)).2 (by intro stmt _; rfl)⟩

/-! ## Database errors -/

/-- C7: when the SELECT on `accommodaties` fails, the booking form GET and the
authenticated admin list GET both answer with status 500 and a body that
contains the table name `accommodaties`, and neither executes a template. -/
theorem accommodaties_query_failure (env : Env) (r : Request) (db : Database)
    (err : String) (hm : r.Method = "GET")
    (hfail : db.fails .selectAccommodaties = some err) :
    ((reserveerHandler env r db).w.status = 500 ∧
      (∃ body, (reserveerHandler env r db).w.errorBody = some body ∧
        bevat body "accommodaties") ∧
      (reserveerHandler env r db).w.rendered = false) ∧
    (r.session.get "isAdmin" = some (.bool true) →
      (adminAccommodatiesHandler env r db).w.status = 500 ∧
      (∃ body, (adminAccommodatiesHandler env r db).w.errorBody = some body ∧
        bevat body "accommodaties") ∧
      (adminAccommodatiesHandler env r db).w.rendered = false) := by
  constructor
  · have hout : (reserveerHandler env r db).w = .httpError
        "Kan accommodaties niet laden: tabel 'accommodaties' ontbreekt in de database" 500 := by
      simp [reserveerHandler, hm, getAccommodaties, Database.QueryAccommodaties, hfail]
    rw [hout]
    exact ⟨rfl, ⟨_, rfl, by decide⟩, rfl⟩
  · intro hadmin
    have hout : (adminAccommodatiesHandler env r db).w = .httpError
        "Tabel 'accommodaties' ontbreekt in de database." 500 := by
      simp [adminAccommodatiesHandler, checkAdmin_of_admin r hadmin, hm,
        Database.QueryAccommodaties, hfail]
    rw [hout]
    exact ⟨rfl, ⟨_, rfl, by decide⟩, rfl⟩

/-- Witness for C7: the two GETs against a database without the table. -/
theorem accommodaties_query_failure_witness :
    (reserveerHandler voorbeeldEnv formulierOpvragen zonderAccommodatiesDb).w.status = 500 ∧
    (adminAccommodatiesHandler voorbeeldEnv lijstOpvragen zonderAccommodatiesDb).w.status = 500 ∧
    (adminAccommodatiesHandler voorbeeldEnv lijstOpvragen zonderAccommodatiesDb).w.rendered
      = false :=
  ⟨(accommodaties_query_failure voorbeeldEnv formulierOpvragen zonderAccommodatiesDb _
      (by decide) (by rfl)).1.1,
   ((accommodaties_query_failure voorbeeldEnv lijstOpvragen zonderAccommodatiesDb _
      (by decide) (by rfl)).2 (by decide)).1,
   ((accommodaties_query_failure voorbeeldEnv lijstOpvragen zonderAccommodatiesDb _
      (by decide) (by rfl)).2 (by decide)).2.2⟩

/-- C8, as stated, fails: when the SELECT of `adminReserveringenHandler` fails
with the error `driver: bad connection`, the response has status 500 but its
body is the fixed text about a missing table, which does not contain the
error text of the database. -/
theorem query_error_text_counterexample :
    verbrokenDb.fails .selectReserveringen = some "driver: bad connection" ∧
    (adminReserveringenHandler voorbeeldEnv lijstOpvragen verbrokenDb).w.status = 500 ∧
    (adminReserveringenHandler voorbeeldEnv lijstOpvragen verbrokenDb).w.errorBody
      = some "Tabel 'reserveringen' ontbreekt in de database.\n" ∧
    ¬ (∃ body, (adminReserveringenHandler voorbeeldEnv lijstOpvragen verbrokenDb).w.errorBody
        = some body ∧ bevat body "driver: bad connection") := by
  refine ⟨rfl, rfl, rfl, ?_⟩
  rintro ⟨body, hb, hc⟩
  have hbody : body = "Tabel 'reserveringen' ontbreekt in de database.\n" :=
    (Option.some.inj hb).symm
  rw [hbody] at hc
  exact absurd hc (by decide)

/-- C8, amended: in every handler that touches the database, a database error
returned by its query or exec gives a response with status 500. When the
failing call is an exec (`reserveerHandler` POST, `adminAccommodatiesHandler`
POST) the body contains the error text of the database. When the failing call
is a query (`accommodatiesHandler`, `reserveerHandler` GET,
`adminReserveringenHandler`, `adminAccommodatiesHandler` GET) the body is a
fixed message that names the table and does not depend on the error text. -/
theorem database_error_gives_500 (env : Env) (r : Request) (db : Database) (err : String) :
    (db.fails .selectAccommodaties = some err →
      (accommodatiesHandler env r db).w = .httpError
        "Kan accommodaties niet laden: tabel 'accommodaties' ontbreekt in de database" 500) ∧
    (r.Method = "GET" → db.fails .selectAccommodaties = some err →
      (reserveerHandler env r db).w = .httpError
        "Kan accommodaties niet laden: tabel 'accommodaties' ontbreekt in de database" 500) ∧
    (r.Method = "POST" → db.fails (reserveerStatement r) = some err →
      (reserveerHandler env r db).w.status = 500 ∧
      ∃ body, (reserveerHandler env r db).w.errorBody = some body ∧ bevat body err) ∧
    (r.session.get "isAdmin" = some (.bool true) →
      db.fails .selectReserveringen = some err →
      (adminReserveringenHandler env r db).w = .httpError
        "Tabel 'reserveringen' ontbreekt in de database." 500) ∧
    (r.session.get "isAdmin" = some (.bool true) → r.Method = "GET" →
      db.fails .selectAccommodaties = some err →
      (adminAccommodatiesHandler env r db).w = .httpError
        "Tabel 'accommodaties' ontbreekt in de database." 500) ∧
    (r.session.get "isAdmin" = some (.bool true) → r.Method = "POST" →
      (∃ stmt ∈ (adminAccommodatiesHandler env r db).issued, db.fails stmt = some err) →
      (adminAccommodatiesHandler env r db).w.status = 500 ∧
      ∃ body, (adminAccommodatiesHandler env r db).w.errorBody = some body ∧
        bevat body err) := by
  refine ⟨?_, ?_, ?_, ?_, ?_, ?_⟩
  · intro hf
    simp [accommodatiesHandler, getAccommodaties, Database.QueryAccommodaties, hf]
  · intro hm hf
    simp [reserveerHandler, hm, getAccommodaties, Database.QueryAccommodaties, hf]
  · intro hm hf
    have hout : (reserveerHandler env r db).w
        = .httpError ("Fout bij opslaan reservering: " ++ err) 500 := by
      simp [reserveerHandler, hm, Database.Exec, hf]
    rw [hout]
    exact ⟨rfl, _, rfl, bevat_middle _ _ _⟩
  · intro hadmin hf
    simp [adminReserveringenHandler, checkAdmin_of_admin r hadmin,
      Database.QueryReserveringen, hf]
  · intro hadmin hm hf
    simp [adminAccommodatiesHandler, checkAdmin_of_admin r hadmin, hm,
      Database.QueryAccommodaties, hf]
  · intro hadmin hm
    by_cases h1 : r.FormValue "actie" = "toevoegen" ∧ r.FormValue "naam" ≠ ""
    · cases hf : db.fails (.insertAccommodatie (r.FormValue "naam")) with
      | none =>
        simp [adminAccommodatiesHandler, checkAdmin_of_admin r hadmin, hm, h1,
          Database.Exec, hf]
      | some e =>
        have hout : adminAccommodatiesHandler env r db =
            { w := .httpError ("Fout bij toevoegen accommodatie: " ++ e) 500,
              session := r.session, db := db,
              issued := [.insertAccommodatie (r.FormValue "naam")] } := by
          simp [adminAccommodatiesHandler, checkAdmin_of_admin r hadmin, hm, h1,
            Database.Exec, hf]
        rw [hout]
        rintro ⟨stmt, hmem, hs⟩
        simp only [List.mem_singleton] at hmem
        rw [hmem, hf] at hs
        cases hs
        exact ⟨rfl, _, rfl, bevat_middle _ _ _⟩
    · by_cases h2 : r.FormValue "actie" = "verwijderen" ∧ r.FormValue "naam" ≠ ""
      · have h1a : r.FormValue "actie" ≠ "toevoegen" := by rw [h2.1]; decide
        cases hf : db.fails (.deleteAccommodatie (r.FormValue "naam")) with
        | none =>
          simp [adminAccommodatiesHandler, checkAdmin_of_admin r hadmin, hm, h1a, h2,
            Database.Exec, hf]
        | some e =>
          have hout : adminAccommodatiesHandler env r db =
              { w := .httpError ("Fout bij verwijderen accommodatie: " ++ e) 500,
                session := r.session, db := db,
                issued := [.deleteAccommodatie (r.FormValue "naam")] } := by
            simp [adminAccommodatiesHandler, checkAdmin_of_admin r hadmin, hm, h1a, h2,
              Database.Exec, hf]
          rw [hout]
          rintro ⟨stmt, hmem, hs⟩
          simp only [List.mem_singleton] at hmem
          rw [hmem, hf] at hs
          cases hs
          exact ⟨rfl, _, rfl, bevat_middle _ _ _⟩
      · have hout : (adminAccommodatiesHandler env r db).issued = [] := by
          simp only [adminAccommodatiesHandler, checkAdmin_of_admin r hadmin, hm]
          simp [h1, h2]
        rw [hout]
        simp

/-- Witness for the amended C8: a lost connection under each of the handlers. -/
theorem database_error_gives_500_witness :
    (accommodatiesHandler voorbeeldEnv formulierOpvragen verbrokenDb).w.status = 500 ∧
    (reserveerHandler voorbeeldEnv formulierOpvragen verbrokenDb).w.status = 500 ∧
    ((reserveerHandler voorbeeldEnv boeking verbrokenDb).w.status = 500 ∧
      ∃ body, (reserveerHandler voorbeeldEnv boeking verbrokenDb).w.errorBody = some body ∧
        bevat body "driver: bad connection") ∧
    (adminReserveringenHandler voorbeeldEnv lijstOpvragen verbrokenDb).w.status = 500 ∧
    (adminAccommodatiesHandler voorbeeldEnv lijstOpvragen verbrokenDb).w.status = 500 ∧
    ((adminAccommodatiesHandler voorbeeldEnv verwijderenTent verbrokenDb).w.status = 500 ∧
      ∃ body, (adminAccommodatiesHandler voorbeeldEnv verwijderenTent verbrokenDb).w.errorBody
        = some body ∧ bevat body "driver: bad connection") :=
  have hf := database_error_gives_500 voorbeeldEnv formulierOpvragen verbrokenDb
    "driver: bad connection"
  have hb := database_error_gives_500 voorbeeldEnv boeking verbrokenDb
    "driver: bad connection"
  have hl := database_error_gives_500 voorbeeldEnv lijstOpvragen verbrokenDb
    "driver: bad connection"
  have hv := database_error_gives_500 voorbeeldEnv verwijderenTent verbrokenDb
    "driver: bad connection"
  ⟨congrArg Response.status (hf.1 rfl),
   congrArg Response.status (hf.2.1 (by decide) rfl),
   hb.2.2.1 (by decide) rfl,
   congrArg Response.status (hl.2.2.2.1 (by decide) rfl),
   congrArg Response.status (hl.2.2.2.2.1 (by decide) (by decide) rfl),
   hv.2.2.2.2.2 (by decide) (by decide)
     ⟨.deleteAccommodatie "Tent", List.mem_singleton.mpr rfl, rfl⟩⟩

/-! ## Admin reservation listing -/

/-- C9: in an authenticated request to `/admin/reserveringen` whose SELECT is
accepted, the list handed to the template `admin_reserveringen` is exactly the
rows of the query that scan without error, in query order, each as scanned
(so it is the image of a subsequence of the rows, and a row is listed with
its ten column values exactly when none of them is `NULL` and its `id` fits
in a Go `int`); rows that fail to
scan are left out without any effect on the status code, which is the same as
for an empty table, and both tables are unchanged. -/
theorem adminReserveringen_lists_scanned_rows (env : Env) (r : Request) (db : Database)
    (hadmin : r.session.get "isAdmin" = some (.bool true))
    (hok : db.fails .selectReserveringen = none) :
    (adminReserveringenHandler env r db).w
      = renderTemplate env "admin_reserveringen"
          (.reserveringen
            (db.reserveringen.filterMap (fun rij => (ScanReservering rij).toOption))) ∧
    (∃ geslaagd : List ReserveringRij, geslaagd.Sublist db.reserveringen ∧
      (∀ rij ∈ db.reserveringen, rij ∈ geslaagd ↔ (ScanReservering rij).toOption.isSome) ∧
      (adminReserveringenHandler env r db).w
        = renderTemplate env "admin_reserveringen"
            (.reserveringen
              (geslaagd.filterMap (fun rij => (ScanReservering rij).toOption)))) ∧
    (∀ (rij : ReserveringRij) (res : Reservering), ScanReservering rij = .ok res ↔
      (rij.id = some res.ID ∧ minInt ≤ res.ID ∧ res.ID ≤ maxInt ∧
        rij.voornaam = some res.Voornaam ∧
        rij.tussenvoegsel = some res.Tussenvoegsel ∧ rij.achternaam = some res.Achternaam ∧
        rij.begindatum = some res.BeginDatum ∧ rij.einddatum = some res.EindDatum ∧
        rij.kenteken = some res.Kenteken ∧ rij.email = some res.Email ∧
        rij.telefoon = some res.Telefoon ∧ rij.accommodatie = some res.Accommodatie)) ∧
    (adminReserveringenHandler env r db).w.status
      = (adminReserveringenHandler env r { db with reserveringen := [] }).w.status ∧
    (adminReserveringenHandler env r db).db.reserveringen = db.reserveringen ∧
    (adminReserveringenHandler env r db).db.accommodaties = db.accommodaties := by
  have hw : ∀ d : Database, d.fails .selectReserveringen = none →
      (adminReserveringenHandler env r d).w = renderTemplate env "admin_reserveringen"
        (.reserveringen
          (d.reserveringen.filterMap (fun rij => (ScanReservering rij).toOption))) := by
    intro d hd
    simp [adminReserveringenHandler, checkAdmin_of_admin r hadmin,
      Database.QueryReserveringen, hd, scanReserveringen_eq]
  have hdb : (adminReserveringenHandler env r db).db = db := by
    simp [adminReserveringenHandler, checkAdmin_of_admin r hadmin,
      Database.QueryReserveringen, hok]
  refine ⟨hw db hok, ?_, ScanReservering_eq_ok_iff, ?_, by rw [hdb], by rw [hdb]⟩
  · refine ⟨db.reserveringen.filter (fun rij => (ScanReservering rij).toOption.isSome),
      List.filter_sublist _, ?_, ?_⟩
    · intro rij hmem
      simp [List.mem_filter, hmem]
    · rw [hw db hok]
      congr 2
      exact (filterMap_filter_isSome _ _).symm
  · rw [hw db hok, hw { db with reserveringen := [] } hok]
    unfold renderTemplate
    cases env.ParseFiles ["templates/base.html", "templates/" ++ "admin_reserveringen" ++ ".html"] <;> rfl

/-- Witness for C9: of four stored reservations the second has no `email` and
the fourth an `id` that does not fit in a Go `int`; the first and the third
are listed, in that order. -/
theorem adminReserveringen_lists_scanned_rows_witness :
    (adminReserveringenHandler voorbeeldEnv lijstOpvragen gatenDb).w
      = .executeTemplate "admin_reserveringen" (.reserveringen
          [{ ID := 1, Voornaam := "Jan", Tussenvoegsel := "van", Achternaam := "Dijk",
             BeginDatum := "2025-07-01", EindDatum := "2025-07-08", Kenteken := "AB-123-C",
             Email := "jan@example.org", Telefoon := "0612345678", Accommodatie := "Chalet" },
           { ID := 3, Voornaam := "Kim", Tussenvoegsel := "de", Achternaam := "Boer",
             BeginDatum := "2025-07-05", EindDatum := "2025-07-06", Kenteken := "ZZ-99-ZZ",
             Email := "kim@example.org", Telefoon := "", Accommodatie := "Tent" }]) :=
  (adminReserveringen_lists_scanned_rows voorbeeldEnv lijstOpvragen gatenDb
    (by decide) rfl).1.trans (by decide)

end Reserveringsysteem
